import Mathlib

/-!
Verification of `arcgis/auth/_auth/_winauth.py`: the `EsriWindowsAuth` and
`EsriKerberosAuth` response-hook token exchange.

The Python source is embedded shallowly:
* pure string manipulation (`str.split`, `str.lower`, `str.find`, the
  `_split_username` regex) becomes executable Lean functions on `String` /
  `List Char`;
* the mutable per-instance caches (`_server_log`, `_tokens`) become an
  explicit `AuthState` record threaded through the hook;
* the HTTP layer (`requests.get`, `requests.post`, `connection.send`) becomes
  a `Network` oracle, and every outbound call is logged in an `HttpCall` list
  so call counts can be inspected;
* a Python exception escaping the hook becomes `Except.error`.
-/

namespace WinAuth

/-- Python whitespace (`\s` for the ASCII range): the characters the regex's
`\S` rejects.  (The source never feeds non-ASCII whitespace through the
claims considered here.) -/
def pySpace (c : Char) : Bool :=
  c = ' ' ∨ c = '\t' ∨ c = '\n' ∨ c = '\r' ∨ c = '\x0b' ∨ c = '\x0c'

/-- Python `str.split(sep)` for a one-character separator: splits on every
occurrence, keeping empty segments (so the result list is never empty). -/
def pySplit (cs : List Char) (sep : Char) : List (List Char) :=
  match cs with
  | [] => [[]]
  | c :: rest =>
    if c = sep then [] :: pySplit rest sep
    else
      match pySplit rest sep with
      | [] => [[c]]
      | a :: as => (c :: a) :: as

/-- `parsed.path[1:].split("/")[0]` from the source: drop the leading
character of the path, split on `/`, take the first piece. -/
def firstSegment (path : String) : String :=
  String.mk ((pySplit (path.toList.drop 1) '/').headD [])

/-- Modelled from the spec: `parse_url` (from `arcgis.auth.tools`, not under
`src/`) parses the request URL into scheme, host, optional port and path; the
spec describes the origin key as "scheme/host/port + first path segment", so
`netloc` is modelled as the bare host. A URL is represented already parsed. -/
structure Url where
  scheme : String
  host : String
  port : Option Nat
  path : String
deriving DecidableEq, Repr

/-- The origin key (`server_url`) computed by both hooks from the parsed URL:
`f'{scheme}://{netloc}:{port}/{path[1:].split("/")[0]}'` when a port is
present, else without the `:{port}` part. -/
def serverUrlOf (u : Url) : String :=
  match u.port with
  | some p => u.scheme ++ "://" ++ u.host ++ ":" ++ toString p ++ "/" ++ firstSegment u.path
  | none => u.scheme ++ "://" ++ u.host ++ "/" ++ firstSegment u.path

/-- Spec-side first path segment: the characters of the path after the
leading `/`, up to the next `/`. -/
def specFirstSegment (path : String) : String :=
  String.mk ((path.toList.drop 1).takeWhile (fun c => ¬(c = '/')))

/-- Spec-side origin key: `<scheme>://<host>[:<port>]/<first path segment>`,
written from the spec's words for comparison with `serverUrlOf`. -/
def specOriginKey (u : Url) : String :=
  u.scheme ++ "://" ++ u.host ++
    (match u.port with | some p => ":" ++ toString p | none => "") ++
    "/" ++ specFirstSegment u.path

/-- Python `str.lower()` on one character, restricted to the ASCII range
(the three markers searched for are pure ASCII). -/
def pyToLower (c : Char) : Char :=
  if 'A' ≤ c ∧ c ≤ 'Z' then Char.ofNat (c.toNat + 32) else c

/-- Python `haystack.find(needle) > -1`: substring containment. -/
def strContains (s pat : List Char) : Bool :=
  s.tails.any (fun t => pat.isPrefixOf t)

/-- `r.text.lower()` contains one of the three token-error markers. -/
def hasTokenError (text : String) : Bool :=
  strContains (text.toList.map pyToLower) "invalid token".toList ||
  strContains (text.toList.map pyToLower) "token required".toList ||
  strContains (text.toList.map pyToLower) "token not found".toList

/-- A prepared HTTP request.  The URL query string and the form-encoded body
are represented as parsed key/value lists (`prepare_url` appends query
parameters; `parse_qs` + `prepare_body` rewrite the body parameters). -/
structure Request where
  method : String
  headers : List (String × String)
  urlParams : List (String × String)
  bodyParams : List (String × String)
deriving DecidableEq, Repr

/-- An HTTP response as seen by the hook: the requested URL (already parsed,
see `Url`), the body text, the status code, the prepared request it answers,
and its headers. -/
structure Response where
  url : Url
  text : String
  status_code : Nat
  request : Request
  headers : List (String × String)
deriving DecidableEq, Repr

/-- Python `d[k] = v` on a string-keyed dict kept as an association list:
replace the existing binding or append a new one. -/
def setItem (m : List (String × String)) (k v : String) : List (String × String) :=
  if m.any (fun kv => kv.1 = k) then
    m.map (fun kv => if kv.1 = k then (k, v) else kv)
  else m ++ [(k, v)]

/-- The mutable per-instance attributes of `EsriWindowsAuth` /
`EsriKerberosAuth` that the hook reads or writes: the `_server_log` and
`_tokens` caches, the configured referer, and the legacy flag. -/
structure AuthState where
  server_log : List (String × String)
  tokens : List (String × String)
  referer : String
  legacy : Bool
deriving DecidableEq, Repr

/-- `self.referer or "http"`: the empty string is falsy in Python. -/
def refOrHttp (st : AuthState) : String :=
  if st.referer = "" then "http" else st.referer

/-- The `postdata` dict built by the hook, in insertion order; `expiration`
is appended because `16000` is truthy.  Form encoding stringifies the
integer. -/
def postdataOf (st : AuthState) (server_url : String) : List (String × String) :=
  [("request", "getToken"), ("serverURL", server_url),
   ("referer", refOrHttp st), ("f", "json"), ("expiration", "16000")]

/-- The HTTP layer, as an oracle.
* `restInfo su` models `requests.get(su + "/rest/info?f=json", ...).json()` followed by `["authInfo"]["tokenServicesUrl"]`:
  `none` when the GET, the JSON decode or a key lookup raises.
* `issueToken url data` models `requests.post(url, data=data, ...).json().get("token", None)`:
  outer `none` when the POST or the JSON decode raises; `some none` when the
  JSON has no `token` key; `some (some t)` on success.
* `send req` models `r.connection.send(r.request, **kwargs)`. -/
structure Network where
  restInfo : String → Option String
  issueToken : String → List (String × String) → Option (Option String)
  send : Request → Response

/-- One outbound HTTP call made by the hook. -/
inductive HttpCall where
  | get (url : String)
  | post (url : String) (data : List (String × String))
  | send (req : Request)
deriving DecidableEq, Repr

/-- A Python exception escaping the hook or the constructor. -/
inductive PyErr where
  | discoveryError
  | issueError
  | attributeError
  | splitFailure
  | noneUsername
  | unpackError
  | configError
deriving DecidableEq, Repr

deriving instance DecidableEq for Except

/-- What one invocation of `generate_portal_server_token` produces: the
returned response (or the escaped exception), the instance state afterwards,
and the outbound HTTP calls in order. -/
structure HookResult where
  result : Except PyErr Response
  state : AuthState
  calls : List HttpCall
deriving DecidableEq, Repr

/-- `EsriWindowsAuth`'s trigger condition (lines 144-149): a token-error
marker in the lowered body text, or status 401, or `server_url` already in
`self._server_log`. -/
def winTriggered (st : AuthState) (r : Response) : Bool :=
  hasTokenError r.text || r.status_code == 401 ||
    (st.server_log.lookup (serverUrlOf r.url)).isSome

/-- `EsriKerberosAuth`'s trigger condition (lines 299-303): the same three
markers or a cached origin, with no status-code test. -/
def kerbTriggered (st : AuthState) (r : Response) : Bool :=
  hasTokenError r.text || (st.server_log.lookup (serverUrlOf r.url)).isSome

/-- The replayed request built by `EsriWindowsAuth` (lines 189-198): set the
`referer` header; then in legacy mode add `token` to the query parameters
(GET) or to the parsed body parameters (POST), and otherwise set the
`X-Esri-Authorization: Bearer` header. -/
def winReplayReq (st : AuthState) (req : Request) (tok : String) : Request :=
  let req0 := { req with headers := setItem req.headers "referer" (refOrHttp st) }
  if st.legacy ∧ req.method = "GET" then
    { req0 with urlParams := req0.urlParams ++ [("token", tok)] }
  else if st.legacy ∧ req.method = "POST" then
    { req0 with bodyParams := setItem req0.bodyParams "token" tok }
  else
    { req0 with headers := setItem req0.headers "X-Esri-Authorization" ("Bearer " ++ tok) }

/-- The replay construction of `EsriWindowsAuth` never raises in this model:
line 194 reads the prepared request's own body (`r.request.body`), which the
`Request` record carries as parsed parameters. -/
def winReplay (st : AuthState) (req : Request) (tok : String) : Except PyErr Request :=
  .ok (winReplayReq st req tok)

/-- The replayed request built by `EsriKerberosAuth` on its non-raising
paths (lines 343-347 and 352-353): line 344 sets the
`X-Esri-Authorization: Bearer` header unconditionally before the legacy
branch; legacy GET then adds the `token` query parameter, and every other
non-raising case sets the bearer header again.  The legacy POST branch is
not built here: it raises (see `kerbReplay`). -/
def kerbReplayReq (st : AuthState) (req : Request) (tok : String) : Request :=
  let req0 := { req with
    headers := setItem (setItem req.headers "referer" (refOrHttp st))
      "X-Esri-Authorization" ("Bearer " ++ tok) }
  if st.legacy ∧ req.method = "GET" then
    { req0 with urlParams := req0.urlParams ++ [("token", tok)] }
  else
    { req0 with headers := setItem req0.headers "X-Esri-Authorization" ("Bearer " ++ tok) }

/-- The replay construction of `EsriKerberosAuth` (lines 343-353): on the
legacy POST branch, line 349 evaluates `parse_qs(r.body)` — but a
`requests.Response` has no `body` attribute (the Windows variant correctly
reads `r.request.body`), so that branch raises `AttributeError` and no
replay happens; every other branch builds `kerbReplayReq`. -/
def kerbReplay (st : AuthState) (req : Request) (tok : String) : Except PyErr Request :=
  if st.legacy ∧ req.method = "GET" then .ok (kerbReplayReq st req tok)
  else if st.legacy ∧ req.method = "POST" then .error .attributeError
  else .ok (kerbReplayReq st req tok)

/-- Replay and return (lines 201-205 / 355-359): build the replayed request
(which can raise, see `kerbReplay`), send it, stamp `referer` and the bearer
header onto the new response's headers, and return it.
(`_r.history.append(r)` has no observable field in this model.) -/
def finishWith (replay : AuthState → Request → String → Except PyErr Request)
    (net : Network) (st : AuthState) (r : Response) (tok : String)
    (calls : List HttpCall) : HookResult :=
  match replay st r.request tok with
  | .error e => { result := .error e, state := st, calls := calls }
  | .ok q =>
    let resp := net.send q
    { result := .ok { resp with
        headers := setItem (setItem resp.headers "referer" (refOrHttp st))
          "X-Esri-Authorization" ("Bearer " ++ tok) },
      state := st, calls := calls ++ [.send q] }

/-- The token-issuance step (lines 171-184 / 325-338): reuse
`self._tokens[server_url]` when present, otherwise POST `postdata` to the
token endpoint; a JSON body without a `token` key returns the original
response, a raised exception escapes, and a fresh token is cached then used. -/
def tokenStep (replay : AuthState → Request → String → Except PyErr Request)
    (net : Network) (st : AuthState) (r : Response) (server_url token_url : String)
    (calls : List HttpCall) : HookResult :=
  match st.tokens.lookup server_url with
  | some tok => finishWith replay net st r tok calls
  | none =>
    match net.issueToken token_url (postdataOf st server_url) with
    | none =>
      { result := .error .issueError, state := st,
        calls := calls ++ [.post token_url (postdataOf st server_url)] }
    | some none =>
      { result := .ok r, state := st,
        calls := calls ++ [.post token_url (postdataOf st server_url)] }
    | some (some tok) =>
      finishWith replay net { st with tokens := st.tokens ++ [(server_url, tok)] }
        r tok (calls ++ [.post token_url (postdataOf st server_url)])

/-- The discovery step (lines 160-170 / 314-324): reuse
`self._server_log[server_url]` when present, otherwise GET
`server_url + "/rest/info?f=json"`, extract `authInfo.tokenServicesUrl`
(a failure anywhere raises), and cache it. -/
def discoveryStep (replay : AuthState → Request → String → Except PyErr Request)
    (net : Network) (st : AuthState) (r : Response) (server_url : String) : HookResult :=
  match st.server_log.lookup server_url with
  | some tu => tokenStep replay net st r server_url tu []
  | none =>
    match net.restInfo server_url with
    | none =>
      { result := .error .discoveryError, state := st,
        calls := [.get (server_url ++ "/rest/info?f=json")] }
    | some tu =>
      tokenStep replay net { st with server_log := st.server_log ++ [(server_url, tu)] }
        r server_url tu [.get (server_url ++ "/rest/info?f=json")]

/-- `EsriWindowsAuth.generate_portal_server_token` (lines 135-206). -/
def winHook (net : Network) (st : AuthState) (r : Response) : HookResult :=
  if winTriggered st r then discoveryStep winReplay net st r (serverUrlOf r.url)
  else { result := .ok r, state := st, calls := [] }

/-- `EsriKerberosAuth.generate_portal_server_token` (lines 290-360). -/
def kerbHook (net : Network) (st : AuthState) (r : Response) : HookResult :=
  if kerbTriggered st r then discoveryStep kerbReplay net st r (serverUrlOf r.url)
  else { result := .ok r, state := st, calls := [] }

/-- The `token` property of `EsriWindowsAuth` (lines 209-216): `return None`,
whatever the instance state. -/
def winTokenProperty (_st : AuthState) : Option String :=
  none

/-- The `token` property of `EsriKerberosAuth` (lines 362-370): `return None`,
whatever the instance state. -/
def kerbTokenProperty (_st : AuthState) : Option String :=
  none

end WinAuth

namespace WinAuth

/-- The separator alternation of the `_split_username` regex
`(@|#|//|\\\\|(?<!/)/(?!/)|\\)` tried at position `k` of the string:
alternatives in source order are `@`, `#`, `//`, a doubled backslash, a
single `/` guarded by a negative lookbehind and lookahead for `/`, and a
single backslash.  Returns the separator text that matches at `k`, if any. -/
def sepAt (cs : List Char) (k : Nat) : Option String :=
  match cs.get? k with
  | none => none
  | some c =>
    if c = '@' then some "@"
    else if c = '#' then some "#"
    else if c = '/' then
      if cs.get? (k + 1) = some '/' then some "//"
      else if k ≠ 0 ∧ cs.get? (k - 1) = some '/' then none
      else some "/"
    else if c = '\\' then
      if cs.get? (k + 1) = some '\\' then some "\\\\"
      else some "\\"
    else none

/-- End of the maximal `\S*` run that starts at `i`. -/
def runEnd (cs : List Char) (i : Nat) : Nat :=
  i + ((cs.drop i).takeWhile (fun c => !pySpace c)).length

/-- Start of the maximal `\S*` run that contains `k`. -/
def runStart (cs : List Char) (k : Nat) : Nat :=
  k - ((cs.take k).reverse.takeWhile (fun c => !pySpace c)).length

/-- Leftmost position at which the separator alternation matches. -/
def firstSepPos (cs : List Char) : Option Nat :=
  (List.range cs.length).find? (fun k => (sepAt cs k).isSome)

/-- Rightmost separator position inside `[a, b)`. -/
def lastSepIn (cs : List Char) (a b : Nat) : Option Nat :=
  ((List.range' a (b - a)).filter (fun k => (sepAt cs k).isSome)).getLast?

/-- The first match of `re.finditer(r"(\S*)?(@|#|//|\\\\|(?<!/)/(?!/)|\\)(\S*)", s)`
as the triple of its three groups (prefix, separator, suffix).  The match
starts at the beginning of the non-space run containing the first separator
position; the greedy `(\S*)?` pushes the separator to the rightmost
separator position of that run; `(\S*)` then takes the rest of the run. -/
def firstMatch (cs : List Char) : Option (List Char × String × List Char) :=
  match firstSepPos cs with
  | none => none
  | some k0 =>
    let r0 := runStart cs k0
    let j := runEnd cs r0
    match lastSepIn cs r0 j with
    | none => none
    | some k =>
      match sepAt cs k with
      | none => none
      | some sep =>
        let pre := (cs.drop r0).take (k - r0)
        let post := (cs.drop (k + sep.length)).takeWhile (fun c => !pySpace c)
        some (pre, sep, post)

/-- `_split_username`: flatten the groups of the regex matches into `tokens`;
if `tokens[1]` is `//`, `\` or `/` return `[tokens[2], tokens[0]]`, if it is
`@` return `[tokens[0], tokens[2]]`.  No match leaves `tokens[1]` out of
range (Python `IndexError`); any other separator leaves `uname`/`dom`
unbound (Python `UnboundLocalError`); both are modelled as `none`. -/
def splitUsername (s : String) : Option (String × String) :=
  match firstMatch s.toList with
  | none => none
  | some (pre, sep, post) =>
    if sep = "//" ∨ sep = "\\" ∨ sep = "/" then some (String.mk post, String.mk pre)
    else if sep = "@" then some (String.mk pre, String.mk post)
    else none

/-- The credential delegate `EsriWindowsAuth.__init__` constructs. -/
inductive Delegate where
  | sspiImplicit
  | kerberosExplicit (principal : String)
  | spnegoAnonymous
  | spnegoCreds (username : String)
  | sspiDomain (domain user : String)
deriving DecidableEq, Repr

/-- Python truthiness of an optional string argument (`None` and `""` are
falsy). -/
def truthy : Option String → Bool
  | none => false
  | some s => !(s = "")

/-- Python `str` of the optional password as interpolated by the f-string
`f"{prin}:{password}"` (`None` prints as `"None"`). -/
def pyStr : Option String → String
  | none => "None"
  | some s => s

/-- `EsriWindowsAuth.__init__` delegate selection (lines 83-125):
an if/elif chain over credential truthiness and library availability.
The Kerberos branch parses the username with `_split_username` (raising on
`None` or an unparseable username); the final SSPI branch unpacks
`username.split("\\")` into exactly a domain and a user; when no branch
applies the `ValueError("Could not login, ...")` configuration error is
raised. -/
def esriWindowsAuthSelect (username password : Option String)
    (hasSSPI hasKerberos hasGSSAPI windows : Bool) : Except PyErr Delegate :=
  if !truthy username ∧ !truthy password ∧ hasSSPI then
    .ok .sspiImplicit
  else if windows ∧ hasKerberos then
    match username with
    | none => .error .noneUsername
    | some u =>
      match splitUsername u with
      | none => .error .splitFailure
      | some (uname, dom) =>
        .ok (.kerberosExplicit (uname ++ "@" ++ dom ++ ":" ++ pyStr password))
  else if hasGSSAPI then
    if !truthy username ∨ !truthy password then .ok .spnegoAnonymous
    else .ok (.spnegoCreds (pyStr username))
  else if truthy username ∧ truthy password ∧ hasSSPI then
    match username with
    | none => .error .unpackError
    | some u =>
      match pySplit u.toList '\\' with
      | [d, usr] => .ok (.sspiDomain (String.mk d) (String.mk usr))
      | _ => .error .unpackError
  else
    .error .configError

/-! Concrete fixtures used by witnesses and counterexamples. -/

/-- A parsed request URL: `https://gis.example.com/server/rest/services/x`. -/
def exUrl : Url := ⟨"https", "gis.example.com", none, "/server/rest/services/x"⟩

/-- A prepared GET request with no headers or parameters. -/
def exReq : Request := ⟨"GET", [], [], []⟩

/-- A 401 response whose body holds none of the three markers. -/
def exResp401 : Response := ⟨exUrl, "", 401, exReq, []⟩

/-- A 200 response whose body holds the `Invalid Token` marker. -/
def exRespMarker : Response := ⟨exUrl, "499: Invalid Token.", 200, exReq, []⟩

/-- Fresh instance state, legacy mode off. -/
def exSt : AuthState := ⟨[], [], "http", false⟩

/-- Fresh instance state, legacy mode on. -/
def exStLegacy : AuthState := ⟨[], [], "http", true⟩

/-- A network where discovery and token issuance both succeed. -/
def exNetOk : Network :=
  ⟨fun _ => some "https://gis.example.com/server/tokens",
   fun _ _ => some (some "TOK"),
   fun q => ⟨exUrl, "ok", 200, q, []⟩⟩

/-- A network whose token endpoint answers with a JSON body that has no
`token` key. -/
def exNetNoToken : Network :=
  ⟨fun _ => some "https://gis.example.com/server/tokens",
   fun _ _ => some none,
   fun q => ⟨exUrl, "ok", 200, q, []⟩⟩

/-- A network where the discovery GET (or its JSON decoding) raises. -/
def exNetFail : Network :=
  ⟨fun _ => none,
   fun _ _ => some (some "TOK"),
   fun q => ⟨exUrl, "ok", 200, q, []⟩⟩

/-- Instance state where the example origin already has a cached token
endpoint and a cached token. -/
def exStCached : AuthState :=
  ⟨[("https://gis.example.com/server", "https://gis.example.com/server/tokens")],
   [("https://gis.example.com/server", "TOK")], "http", false⟩

/-- The token endpoint a triggered invocation will use for `su`: the cached
`_server_log` entry when present, otherwise whatever discovery returns. -/
def tokenUrlFor (net : Network) (st : AuthState) (su : String) : Option String :=
  match st.server_log.lookup su with
  | some tu => some tu
  | none => net.restInfo su

/-- Number of discovery GETs in a call log. -/
def countGets (calls : List HttpCall) : Nat :=
  calls.countP (fun c => match c with | .get _ => true | _ => false)

/-- Number of token-issuance POSTs in a call log. -/
def countPosts (calls : List HttpCall) : Nat :=
  calls.countP (fun c => match c with | .post _ _ => true | _ => false)

theorem pySplit_ne_nil (cs : List Char) (sep : Char) : pySplit cs sep ≠ [] := by
  cases cs with
  | nil => simp [pySplit]
  | cons c rest =>
    unfold pySplit
    split
    · simp
    · cases h : pySplit rest sep <;> simp

theorem pySplit_headD (cs : List Char) (sep : Char) :
    (pySplit cs sep).headD [] = cs.takeWhile (fun c => ¬(c = sep)) := by
  induction cs with
  | nil => simp [pySplit]
  | cons c rest ih =>
    unfold pySplit
    by_cases hc : c = sep
    · simp [hc, List.takeWhile]
    · simp only [hc, if_false, List.takeWhile]
      cases h : pySplit rest sep with
      | nil => exact absurd h (pySplit_ne_nil rest sep)
      | cons a as =>
        simp only [List.headD]
        rw [h] at ih
        simp only [List.headD] at ih
        simp [hc, ih]

theorem lookup_append_left {l l' : List (String × String)} {k : String} {v : String}
    (h : l.lookup k = some v) : (l ++ l').lookup k = some v := by
  induction l with
  | nil => simp [List.lookup] at h
  | cons a rest ih =>
    simp only [List.lookup, List.cons_append] at h ⊢
    split at h
    · exact h
    · exact ih h

/-- When the replay construction raises, the step returns the error with
the calls made so far and the current state. -/
theorem finishWith_err (replay : AuthState → Request → String → Except PyErr Request)
    (net : Network) (st : AuthState) (r : Response) (tok : String)
    (calls : List HttpCall) (e : PyErr) (h : replay st r.request tok = .error e) :
    finishWith replay net st r tok calls = ⟨.error e, st, calls⟩ := by
  unfold finishWith
  rw [h]

/-- When the replay construction succeeds, the step sends exactly that
request and returns the stamped response. -/
theorem finishWith_ok (replay : AuthState → Request → String → Except PyErr Request)
    (net : Network) (st : AuthState) (r : Response) (tok : String)
    (calls : List HttpCall) (q : Request) (h : replay st r.request tok = .ok q) :
    finishWith replay net st r tok calls =
      ⟨.ok { net.send q with
          headers := setItem (setItem (net.send q).headers "referer" (refOrHttp st))
            "X-Esri-Authorization" ("Bearer " ++ tok) },
        st, calls ++ [.send q]⟩ := by
  unfold finishWith
  rw [h]

theorem finishWith_state (replay : AuthState → Request → String → Except PyErr Request)
    (net : Network) (st : AuthState) (r : Response) (tok : String)
    (calls : List HttpCall) :
    (finishWith replay net st r tok calls).state = st := by
  unfold finishWith
  cases replay st r.request tok <;> rfl

/-- The token step only ever appends to the token cache. -/
theorem tokenStep_state_extends (replay : AuthState → Request → String → Except PyErr Request)
    (net : Network) (st : AuthState) (r : Response) (su tu : String)
    (calls : List HttpCall) :
    ∃ l2, (tokenStep replay net st r su tu calls).state =
      { st with tokens := st.tokens ++ l2 } := by
  unfold tokenStep
  cases h : st.tokens.lookup su with
  | some tok => exact ⟨[], by rw [finishWith_state]; simp⟩
  | none =>
    cases h2 : net.issueToken tu (postdataOf st su) with
    | none => exact ⟨[], by simp⟩
    | some o =>
      cases o with
      | none => exact ⟨[], by simp⟩
      | some tok => exact ⟨[(su, tok)], by rw [finishWith_state]⟩

/-- The discovery step only ever appends to the two caches. -/
theorem discoveryStep_state_extends (replay : AuthState → Request → String → Except PyErr Request)
    (net : Network) (st : AuthState) (r : Response) (su : String) :
    ∃ l1 l2, (discoveryStep replay net st r su).state =
      { st with server_log := st.server_log ++ l1, tokens := st.tokens ++ l2 } := by
  unfold discoveryStep
  cases h : st.server_log.lookup su with
  | some tu =>
    obtain ⟨l2, h2⟩ := tokenStep_state_extends replay net st r su tu []
    exact ⟨[], l2, by simp [h2]⟩
  | none =>
    cases h2 : net.restInfo su with
    | none => exact ⟨[], [], by simp⟩
    | some tu =>
      obtain ⟨l2, h3⟩ :=
        tokenStep_state_extends replay net { st with server_log := st.server_log ++ [(su, tu)] }
          r su tu [.get (su ++ "/rest/info?f=json")]
      exact ⟨[(su, tu)], l2, by simp [h3]⟩

theorem winHook_state_extends (net : Network) (st : AuthState) (r : Response) :
    ∃ l1 l2, (winHook net st r).state =
      { st with server_log := st.server_log ++ l1, tokens := st.tokens ++ l2 } := by
  unfold winHook
  split
  · exact discoveryStep_state_extends winReplay net st r (serverUrlOf r.url)
  · exact ⟨[], [], by simp⟩

theorem kerbHook_state_extends (net : Network) (st : AuthState) (r : Response) :
    ∃ l1 l2, (kerbHook net st r).state =
      { st with server_log := st.server_log ++ l1, tokens := st.tokens ++ l2 } := by
  unfold kerbHook
  split
  · exact discoveryStep_state_extends kerbReplay net st r (serverUrlOf r.url)
  · exact ⟨[], [], by simp⟩

/-- C6: for every instance and every invocation of
`generate_portal_server_token` (of either class), the per-origin
token-service-URL cache and the per-origin token cache grow monotonically:
an origin key that maps to an endpoint or a token keeps exactly that
mapping afterwards, so an entry is never removed or overwritten. -/
theorem cache_entries_never_change (net : Network) (st : AuthState) (r : Response)
    (k v : String) :
    (st.server_log.lookup k = some v →
      ((winHook net st r).state.server_log.lookup k = some v ∧
       (kerbHook net st r).state.server_log.lookup k = some v)) ∧
    (st.tokens.lookup k = some v →
      ((winHook net st r).state.tokens.lookup k = some v ∧
       (kerbHook net st r).state.tokens.lookup k = some v)) := by
  obtain ⟨l1, l2, hw⟩ := winHook_state_extends net st r
  obtain ⟨l1', l2', hk⟩ := kerbHook_state_extends net st r
  constructor
  · intro h
    rw [hw, hk]
    exact ⟨lookup_append_left h, lookup_append_left h⟩
  · intro h
    rw [hw, hk]
    exact ⟨lookup_append_left h, lookup_append_left h⟩

/-- Witness for `cache_entries_never_change` at a concrete cached origin. -/
theorem cache_entries_never_change_witness :
    (({ server_log := [("o", "t")], tokens := [], referer := "http",
        legacy := false } : AuthState).server_log.lookup "o" = some "t") ∧
    ((winHook
        ⟨fun _ => some "tu", fun _ _ => some (some "tok"), fun q => ⟨⟨"https", "h", none, "/p"⟩, "ok", 200, q, []⟩⟩
        { server_log := [("o", "t")], tokens := [], referer := "http", legacy := false }
        ⟨⟨"https", "h", none, "/p"⟩, "", 401, ⟨"GET", [], [], []⟩, []⟩).state.server_log.lookup "o"
      = some "t") := by
  refine ⟨by decide, ?_⟩
  exact ((cache_entries_never_change _ _ _ "o" "t").1 (by decide)).1

/-- C7: the origin key both hooks compute from the parsed request URL equals
`<scheme>://<host>[:<port>]/<first path segment>`. -/
theorem serverUrl_is_origin_key (u : Url) : serverUrlOf u = specOriginKey u := by
  have h : firstSegment u.path = specFirstSegment u.path := by
    unfold firstSegment specFirstSegment
    rw [pySplit_headD]
  unfold serverUrlOf specOriginKey
  cases u.port <;> simp [h, String.append_assoc]

/-- C9: the public `token` property of both classes returns `None` whatever
the instance state (the caches included). -/
theorem token_property_always_none (st : AuthState) :
    winTokenProperty st = none ∧ kerbTokenProperty st = none :=
  ⟨rfl, rfl⟩

/-! Exact results of the two steps in each cache/network situation. -/

theorem tokenStep_cached (replay : AuthState → Request → String → Except PyErr Request)
    (net : Network) (st : AuthState) (r : Response) (su tu tok : String)
    (calls : List HttpCall) (htk : st.tokens.lookup su = some tok) :
    tokenStep replay net st r su tu calls = finishWith replay net st r tok calls := by
  simp [tokenStep, htk]

theorem tokenStep_issue_raises (replay : AuthState → Request → String → Except PyErr Request)
    (net : Network) (st : AuthState) (r : Response) (su tu : String)
    (calls : List HttpCall) (htk : st.tokens.lookup su = none)
    (hiss : net.issueToken tu (postdataOf st su) = none) :
    tokenStep replay net st r su tu calls =
      ⟨.error .issueError, st, calls ++ [.post tu (postdataOf st su)]⟩ := by
  simp [tokenStep, htk, hiss]

theorem tokenStep_no_token_key (replay : AuthState → Request → String → Except PyErr Request)
    (net : Network) (st : AuthState) (r : Response) (su tu : String)
    (calls : List HttpCall) (htk : st.tokens.lookup su = none)
    (hiss : net.issueToken tu (postdataOf st su) = some none) :
    tokenStep replay net st r su tu calls =
      ⟨.ok r, st, calls ++ [.post tu (postdataOf st su)]⟩ := by
  simp [tokenStep, htk, hiss]

theorem tokenStep_fresh_token (replay : AuthState → Request → String → Except PyErr Request)
    (net : Network) (st : AuthState) (r : Response) (su tu tok : String)
    (calls : List HttpCall) (htk : st.tokens.lookup su = none)
    (hiss : net.issueToken tu (postdataOf st su) = some (some tok)) :
    tokenStep replay net st r su tu calls =
      finishWith replay net { st with tokens := st.tokens ++ [(su, tok)] } r tok
        (calls ++ [.post tu (postdataOf st su)]) := by
  simp [tokenStep, htk, hiss]

theorem discoveryStep_cached (replay : AuthState → Request → String → Except PyErr Request)
    (net : Network) (st : AuthState) (r : Response) (su tu : String)
    (hsl : st.server_log.lookup su = some tu) :
    discoveryStep replay net st r su = tokenStep replay net st r su tu [] := by
  simp [discoveryStep, hsl]

theorem discoveryStep_raises (replay : AuthState → Request → String → Except PyErr Request)
    (net : Network) (st : AuthState) (r : Response) (su : String)
    (hsl : st.server_log.lookup su = none) (hinfo : net.restInfo su = none) :
    discoveryStep replay net st r su =
      ⟨.error .discoveryError, st, [.get (su ++ "/rest/info?f=json")]⟩ := by
  simp [discoveryStep, hsl, hinfo]

theorem discoveryStep_fresh (replay : AuthState → Request → String → Except PyErr Request)
    (net : Network) (st : AuthState) (r : Response) (su tu : String)
    (hsl : st.server_log.lookup su = none) (hinfo : net.restInfo su = some tu) :
    discoveryStep replay net st r su =
      tokenStep replay net { st with server_log := st.server_log ++ [(su, tu)] }
        r su tu [.get (su ++ "/rest/info?f=json")] := by
  simp [discoveryStep, hsl, hinfo]

/-- A fresh origin with successful discovery and issuance: one GET, one
POST, both caches filled, then the replay. -/
theorem discoveryStep_fresh_token (replay : AuthState → Request → String → Except PyErr Request)
    (net : Network) (st : AuthState) (r : Response) (su tu tok : String)
    (hsl : st.server_log.lookup su = none) (hinfo : net.restInfo su = some tu)
    (htk : st.tokens.lookup su = none)
    (hiss : net.issueToken tu (postdataOf st su) = some (some tok)) :
    discoveryStep replay net st r su =
      finishWith replay net
        { st with server_log := st.server_log ++ [(su, tu)],
                  tokens := st.tokens ++ [(su, tok)] }
        r tok [.get (su ++ "/rest/info?f=json"), .post tu (postdataOf st su)] := by
  rw [discoveryStep_fresh replay net st r su tu hsl hinfo,
    tokenStep_fresh_token replay net { st with server_log := st.server_log ++ [(su, tu)] }
      r su tu tok [.get (su ++ "/rest/info?f=json")] htk hiss]
  rfl

/-- A fully cached origin: no HTTP call before the replay. -/
theorem discoveryStep_cached_token (replay : AuthState → Request → String → Except PyErr Request)
    (net : Network) (st : AuthState) (r : Response) (su tu tok : String)
    (hsl : st.server_log.lookup su = some tu)
    (htk : st.tokens.lookup su = some tok) :
    discoveryStep replay net st r su = finishWith replay net st r tok [] := by
  rw [discoveryStep_cached replay net st r su tu hsl,
    tokenStep_cached replay net st r su tu tok [] htk]

/-- The replayed request does not depend on the two caches. -/
theorem winReplayReq_cache_irrel (st : AuthState) (l1 l2 : List (String × String))
    (req : Request) (tok : String) :
    winReplayReq { st with server_log := l1, tokens := l2 } req tok =
      winReplayReq st req tok := rfl

/-- The replayed request does not depend on the two caches. -/
theorem kerbReplayReq_cache_irrel (st : AuthState) (l1 l2 : List (String × String))
    (req : Request) (tok : String) :
    kerbReplayReq { st with server_log := l1, tokens := l2 } req tok =
      kerbReplayReq st req tok := rfl

/-- Neither replay construction depends on the two caches. -/
theorem winReplay_cache_irrel (st : AuthState) (l1 l2 : List (String × String))
    (req : Request) (tok : String) :
    winReplay { st with server_log := l1, tokens := l2 } req tok =
      winReplay st req tok := rfl

/-- Neither replay construction depends on the two caches. -/
theorem kerbReplay_cache_irrel (st : AuthState) (l1 l2 : List (String × String))
    (req : Request) (tok : String) :
    kerbReplay { st with server_log := l1, tokens := l2 } req tok =
      kerbReplay st req tok := rfl

/-- The token step never drops calls already logged. -/
theorem tokenStep_calls_prefix (replay : AuthState → Request → String → Except PyErr Request)
    (net : Network) (st : AuthState) (r : Response) (su tu : String)
    (calls : List HttpCall) :
    ∃ rest, (tokenStep replay net st r su tu calls).calls = calls ++ rest := by
  cases htk : st.tokens.lookup su with
  | some tok =>
    rw [tokenStep_cached replay net st r su tu tok calls htk]
    cases hr : replay st r.request tok with
    | error e =>
      rw [finishWith_err replay net st r tok calls e hr]
      exact ⟨[], by simp⟩
    | ok q =>
      rw [finishWith_ok replay net st r tok calls q hr]
      exact ⟨[.send q], rfl⟩
  | none =>
    cases h2 : net.issueToken tu (postdataOf st su) with
    | none =>
      rw [tokenStep_issue_raises replay net st r su tu calls htk h2]
      exact ⟨[.post tu (postdataOf st su)], rfl⟩
    | some o =>
      cases o with
      | none =>
        rw [tokenStep_no_token_key replay net st r su tu calls htk h2]
        exact ⟨[.post tu (postdataOf st su)], rfl⟩
      | some tok =>
        rw [tokenStep_fresh_token replay net st r su tu tok calls htk h2]
        cases hr : replay { st with tokens := st.tokens ++ [(su, tok)] } r.request tok with
        | error e =>
          rw [finishWith_err replay net _ r tok _ e hr]
          exact ⟨[.post tu (postdataOf st su)], rfl⟩
        | ok q =>
          rw [finishWith_ok replay net _ r tok _ q hr]
          exact ⟨[.post tu (postdataOf st su), .send q], by simp⟩

/-- A triggered invocation that makes no HTTP call at all can only have
raised while rebuilding the replayed request (the `AttributeError` of the
Kerberos legacy POST path): its result is an error. -/
theorem discoveryStep_nil_calls_error
    (replay : AuthState → Request → String → Except PyErr Request)
    (net : Network) (st : AuthState) (r : Response) (su : String)
    (h : (discoveryStep replay net st r su).calls = []) :
    ∃ e, (discoveryStep replay net st r su).result = .error e := by
  cases hsl : st.server_log.lookup su with
  | some tu =>
    rw [discoveryStep_cached replay net st r su tu hsl] at h ⊢
    cases htk : st.tokens.lookup su with
    | some tok =>
      rw [tokenStep_cached replay net st r su tu tok [] htk] at h ⊢
      cases hr : replay st r.request tok with
      | error e =>
        rw [finishWith_err replay net st r tok [] e hr]
        exact ⟨e, rfl⟩
      | ok q =>
        rw [finishWith_ok replay net st r tok [] q hr] at h
        simp at h
    | none =>
      cases h2 : net.issueToken tu (postdataOf st su) with
      | none =>
        rw [tokenStep_issue_raises replay net st r su tu [] htk h2] at h
        simp at h
      | some o =>
        cases o with
        | none =>
          rw [tokenStep_no_token_key replay net st r su tu [] htk h2] at h
          simp at h
        | some tok =>
          rw [tokenStep_fresh_token replay net st r su tu tok [] htk h2] at h
          cases hr : replay { st with tokens := st.tokens ++ [(su, tok)] } r.request tok with
          | error e =>
            rw [finishWith_err replay net _ r tok _ e hr] at h
            simp at h
          | ok q =>
            rw [finishWith_ok replay net _ r tok _ q hr] at h
            simp at h
  | none =>
    cases h2 : net.restInfo su with
    | none =>
      rw [discoveryStep_raises replay net st r su hsl h2] at h
      simp at h
    | some tu =>
      rw [discoveryStep_fresh replay net st r su tu hsl h2] at h
      obtain ⟨rest, hre⟩ := tokenStep_calls_prefix replay net
        { st with server_log := st.server_log ++ [(su, tu)] } r su tu
        [.get (su ++ "/rest/info?f=json")]
      rw [hre] at h
      simp at h

/-- C1 counterexample: a 401 response with no marker and an unknown origin
satisfies the claimed trigger condition, yet `EsriKerberosAuth`'s hook does
not enter the token-exchange path (it makes no HTTP call and hands back the
original response with untouched state): its trigger has no status-code
test. -/
theorem kerb_401_not_triggering :
    ¬((kerbHook exNetOk exSt exResp401 ≠
        ⟨.ok exResp401, exSt, []⟩) ↔
      (hasTokenError exResp401.text = true ∨ exResp401.status_code = 401 ∨
       (exSt.server_log.lookup (serverUrlOf exResp401.url)).isSome = true)) := by
  decide

/-- C1 amended: the token-exchange path is entered — observably, the hook's
outcome differs from handing back the original response with untouched state
and no HTTP call — iff the body text holds a marker, or (for
`EsriWindowsAuth` only) the status is 401, or the origin is cached;
otherwise the response is returned as-is with the state untouched. -/
theorem trigger_condition_characterization (net : Network) (st : AuthState)
    (r : Response) :
    ((winHook net st r ≠ ⟨.ok r, st, []⟩) ↔
      (hasTokenError r.text = true ∨ r.status_code = 401 ∨
       (st.server_log.lookup (serverUrlOf r.url)).isSome = true)) ∧
    ((kerbHook net st r ≠ ⟨.ok r, st, []⟩) ↔
      (hasTokenError r.text = true ∨
       (st.server_log.lookup (serverUrlOf r.url)).isSome = true)) ∧
    (winTriggered st r = false →
      winHook net st r = ⟨.ok r, st, []⟩) ∧
    (kerbTriggered st r = false →
      kerbHook net st r = ⟨.ok r, st, []⟩) := by
  have hwt : winTriggered st r = true ↔
      (hasTokenError r.text = true ∨ r.status_code = 401 ∨
       (st.server_log.lookup (serverUrlOf r.url)).isSome = true) := by
    simp [winTriggered, or_assoc]
  have hkt : kerbTriggered st r = true ↔
      (hasTokenError r.text = true ∨
       (st.server_log.lookup (serverUrlOf r.url)).isSome = true) := by
    simp [kerbTriggered]
  refine ⟨?_, ?_, ?_, ?_⟩
  · rw [← hwt]
    unfold winHook
    constructor
    · intro h
      by_contra hf
      simp [Bool.not_eq_true] at hf
      simp [hf] at h
    · intro ht
      simp only [ht, if_true]
      intro heq
      have hc : (discoveryStep winReplay net st r (serverUrlOf r.url)).calls = [] := by
        rw [heq]
      obtain ⟨e, he⟩ := discoveryStep_nil_calls_error winReplay net st r _ hc
      rw [heq] at he
      simp at he
  · rw [← hkt]
    unfold kerbHook
    constructor
    · intro h
      by_contra hf
      simp [Bool.not_eq_true] at hf
      simp [hf] at h
    · intro ht
      simp only [ht, if_true]
      intro heq
      have hc : (discoveryStep kerbReplay net st r (serverUrlOf r.url)).calls = [] := by
        rw [heq]
      obtain ⟨e, he⟩ := discoveryStep_nil_calls_error kerbReplay net st r _ hc
      rw [heq] at he
      simp at he
  · intro h
    simp [winHook, h]
  · intro h
    simp [kerbHook, h]

/-- Witness for `trigger_condition_characterization`: a clean 200 response
passes through untouched. -/
theorem trigger_condition_characterization_witness :
    winHook exNetOk exSt ⟨exUrl, "ok", 200, exReq, []⟩ =
      ⟨.ok ⟨exUrl, "ok", 200, exReq, []⟩, exSt, []⟩ :=
  (trigger_condition_characterization exNetOk exSt ⟨exUrl, "ok", 200, exReq, []⟩).2.2.1
    (by decide)

/-- Any POST the token step logs beyond `calls` carries `postdataOf`. -/
theorem post_mem_tokenStep (replay : AuthState → Request → String → Except PyErr Request)
    (net : Network) (st : AuthState) (r : Response) (su tu url : String)
    (d : List (String × String)) (calls : List HttpCall)
    (h : HttpCall.post url d ∈ (tokenStep replay net st r su tu calls).calls) :
    HttpCall.post url d ∈ calls ∨ (url = tu ∧ d = postdataOf st su) := by
  cases htk : st.tokens.lookup su with
  | some tok =>
    rw [tokenStep_cached replay net st r su tu tok calls htk] at h
    cases hr : replay st r.request tok with
    | error e =>
      rw [finishWith_err replay net st r tok calls e hr] at h
      exact .inl h
    | ok q =>
      rw [finishWith_ok replay net st r tok calls q hr] at h
      simp only [List.mem_append, List.mem_singleton] at h
      rcases h with h | h
      · exact .inl h
      · cases h
  | none =>
    cases h2 : net.issueToken tu (postdataOf st su) with
    | none =>
      rw [tokenStep_issue_raises replay net st r su tu calls htk h2] at h
      simp only [List.mem_append, List.mem_singleton] at h
      rcases h with h | h
      · exact .inl h
      · cases h; exact .inr ⟨rfl, rfl⟩
    | some o =>
      cases o with
      | none =>
        rw [tokenStep_no_token_key replay net st r su tu calls htk h2] at h
        simp only [List.mem_append, List.mem_singleton] at h
        rcases h with h | h
        · exact .inl h
        · cases h; exact .inr ⟨rfl, rfl⟩
      | some tok =>
        rw [tokenStep_fresh_token replay net st r su tu tok calls htk h2] at h
        cases hr : replay { st with tokens := st.tokens ++ [(su, tok)] } r.request tok with
        | error e =>
          rw [finishWith_err replay net _ r tok _ e hr] at h
          simp only [List.mem_append, List.mem_singleton] at h
          rcases h with h | h
          · exact .inl h
          · cases h; exact .inr ⟨rfl, rfl⟩
        | ok q =>
          rw [finishWith_ok replay net _ r tok _ q hr] at h
          simp only [List.append_assoc, List.mem_append, List.mem_singleton] at h
          rcases h with h | h | h
          · exact .inl h
          · cases h; exact .inr ⟨rfl, rfl⟩
          · cases h

/-- Any POST a triggered invocation makes carries `postdataOf`. -/
theorem post_mem_discoveryStep (replay : AuthState → Request → String → Except PyErr Request)
    (net : Network) (st : AuthState) (r : Response) (su url : String)
    (d : List (String × String))
    (h : HttpCall.post url d ∈ (discoveryStep replay net st r su).calls) :
    d = postdataOf st su := by
  cases hsl : st.server_log.lookup su with
  | some tu =>
    rw [discoveryStep_cached replay net st r su tu hsl] at h
    rcases post_mem_tokenStep replay net st r su tu url d [] h with h' | h'
    · cases h'
    · exact h'.2
  | none =>
    cases h2 : net.restInfo su with
    | none =>
      rw [discoveryStep_raises replay net st r su hsl h2] at h
      simp at h
    | some tu =>
      rw [discoveryStep_fresh replay net st r su tu hsl h2] at h
      rcases post_mem_tokenStep replay net
          { st with server_log := st.server_log ++ [(su, tu)] } r su tu url d
          [.get (su ++ "/rest/info?f=json")] h with h' | h'
      · simp at h'
      · exact h'.2

/-- C8: every token-issuance POST either hook sends carries exactly the form
fields `request=getToken`, `serverURL=<origin key>`, `referer` (the
configured referer, `http` when that is empty), `f=json`,
`expiration=16000`. -/
theorem post_payload_fields (net : Network) (st : AuthState) (r : Response)
    (url : String) (d : List (String × String))
    (h : HttpCall.post url d ∈ (winHook net st r).calls ∨
         HttpCall.post url d ∈ (kerbHook net st r).calls) :
    d = [("request", "getToken"), ("serverURL", serverUrlOf r.url),
         ("referer", refOrHttp st), ("f", "json"), ("expiration", "16000")] := by
  rcases h with h | h
  · unfold winHook at h
    split at h
    · exact post_mem_discoveryStep winReplay net st r (serverUrlOf r.url) url d h
    · simp at h
  · unfold kerbHook at h
    split at h
    · exact post_mem_discoveryStep kerbReplay net st r (serverUrlOf r.url) url d h
    · simp at h

theorem discoveryStep_no_token_key (replay : AuthState → Request → String → Except PyErr Request)
    (net : Network) (st : AuthState) (r : Response) (su tu : String)
    (htk : st.tokens.lookup su = none)
    (htu : tokenUrlFor net st su = some tu)
    (hiss : net.issueToken tu (postdataOf st su) = some none) :
    (discoveryStep replay net st r su).result = .ok r ∧
    ∀ q, HttpCall.send q ∉ (discoveryStep replay net st r su).calls := by
  unfold tokenUrlFor at htu
  cases hsl : st.server_log.lookup su with
  | some tu0 =>
    rw [hsl] at htu
    cases htu
    rw [discoveryStep_cached replay net st r su tu hsl,
      tokenStep_no_token_key replay net st r su tu [] htk hiss]
    exact ⟨rfl, by simp⟩
  | none =>
    rw [hsl] at htu
    rw [discoveryStep_fresh replay net st r su tu hsl htu,
      tokenStep_no_token_key replay net { st with server_log := st.server_log ++ [(su, tu)] }
        r su tu [.get (su ++ "/rest/info?f=json")] htk hiss]
    exact ⟨rfl, by simp⟩

theorem discoveryStep_discovery_raises (replay : AuthState → Request → String → Except PyErr Request)
    (net : Network) (st : AuthState) (r : Response) (su : String)
    (htu : tokenUrlFor net st su = none) :
    (discoveryStep replay net st r su).result = .error .discoveryError := by
  unfold tokenUrlFor at htu
  cases hsl : st.server_log.lookup su with
  | some tu0 => rw [hsl] at htu; cases htu
  | none =>
    rw [hsl] at htu
    rw [discoveryStep_raises replay net st r su hsl htu]

theorem discoveryStep_issue_raises (replay : AuthState → Request → String → Except PyErr Request)
    (net : Network) (st : AuthState) (r : Response) (su tu : String)
    (htk : st.tokens.lookup su = none)
    (htu : tokenUrlFor net st su = some tu)
    (hiss : net.issueToken tu (postdataOf st su) = none) :
    (discoveryStep replay net st r su).result = .error .issueError := by
  unfold tokenUrlFor at htu
  cases hsl : st.server_log.lookup su with
  | some tu0 =>
    rw [hsl] at htu
    cases htu
    rw [discoveryStep_cached replay net st r su tu hsl,
      tokenStep_issue_raises replay net st r su tu [] htk hiss]
  | none =>
    rw [hsl] at htu
    rw [discoveryStep_fresh replay net st r su tu hsl htu,
      tokenStep_issue_raises replay net { st with server_log := st.server_log ++ [(su, tu)] }
        r su tu [.get (su ++ "/rest/info?f=json")] htk hiss]

/-- C4 counterexample: on a triggered invocation whose discovery call fails,
the exception escapes the hook instead of the original response coming back. -/
theorem discovery_failure_escapes :
    winTriggered exSt exResp401 = true ∧
    (winHook exNetFail exSt exResp401).result = Except.error PyErr.discoveryError ∧
    (winHook exNetFail exSt exResp401).result ≠ Except.ok exResp401 := by
  decide

/-- C4 amended: only an issuance answer whose JSON body lacks a `token` key
makes the hook silently return the original response (with no replay); a
discovery failure or a failing issuance call itself raises instead, for both
classes. -/
theorem token_failure_behaviour (net : Network) (st : AuthState) (r : Response)
    (tu : String) :
    (winTriggered st r = true →
     st.tokens.lookup (serverUrlOf r.url) = none →
     tokenUrlFor net st (serverUrlOf r.url) = some tu →
     net.issueToken tu (postdataOf st (serverUrlOf r.url)) = some none →
       (winHook net st r).result = .ok r ∧
       ∀ q, HttpCall.send q ∉ (winHook net st r).calls) ∧
    (winTriggered st r = true →
     tokenUrlFor net st (serverUrlOf r.url) = none →
       (winHook net st r).result = .error .discoveryError) ∧
    (winTriggered st r = true →
     st.tokens.lookup (serverUrlOf r.url) = none →
     tokenUrlFor net st (serverUrlOf r.url) = some tu →
     net.issueToken tu (postdataOf st (serverUrlOf r.url)) = none →
       (winHook net st r).result = .error .issueError) ∧
    (kerbTriggered st r = true →
     st.tokens.lookup (serverUrlOf r.url) = none →
     tokenUrlFor net st (serverUrlOf r.url) = some tu →
     net.issueToken tu (postdataOf st (serverUrlOf r.url)) = some none →
       (kerbHook net st r).result = .ok r ∧
       ∀ q, HttpCall.send q ∉ (kerbHook net st r).calls) ∧
    (kerbTriggered st r = true →
     tokenUrlFor net st (serverUrlOf r.url) = none →
       (kerbHook net st r).result = .error .discoveryError) ∧
    (kerbTriggered st r = true →
     st.tokens.lookup (serverUrlOf r.url) = none →
     tokenUrlFor net st (serverUrlOf r.url) = some tu →
     net.issueToken tu (postdataOf st (serverUrlOf r.url)) = none →
       (kerbHook net st r).result = .error .issueError) := by
  refine ⟨?_, ?_, ?_, ?_, ?_, ?_⟩
  · intro htrig htk htu hiss
    have hw : winHook net st r = discoveryStep winReplay net st r (serverUrlOf r.url) := by
      simp [winHook, htrig]
    rw [hw]
    exact discoveryStep_no_token_key winReplay net st r _ tu htk htu hiss
  · intro htrig htu
    have hw : winHook net st r = discoveryStep winReplay net st r (serverUrlOf r.url) := by
      simp [winHook, htrig]
    rw [hw]
    exact discoveryStep_discovery_raises winReplay net st r _ htu
  · intro htrig htk htu hiss
    have hw : winHook net st r = discoveryStep winReplay net st r (serverUrlOf r.url) := by
      simp [winHook, htrig]
    rw [hw]
    exact discoveryStep_issue_raises winReplay net st r _ tu htk htu hiss
  · intro htrig htk htu hiss
    have hk : kerbHook net st r = discoveryStep kerbReplay net st r (serverUrlOf r.url) := by
      simp [kerbHook, htrig]
    rw [hk]
    exact discoveryStep_no_token_key kerbReplay net st r _ tu htk htu hiss
  · intro htrig htu
    have hk : kerbHook net st r = discoveryStep kerbReplay net st r (serverUrlOf r.url) := by
      simp [kerbHook, htrig]
    rw [hk]
    exact discoveryStep_discovery_raises kerbReplay net st r _ htu
  · intro htrig htk htu hiss
    have hk : kerbHook net st r = discoveryStep kerbReplay net st r (serverUrlOf r.url) := by
      simp [kerbHook, htrig]
    rw [hk]
    exact discoveryStep_issue_raises kerbReplay net st r _ tu htk htu hiss

/-- Witness for `token_failure_behaviour`: a missing `token` key makes the
hook hand back the original response. -/
theorem token_failure_behaviour_witness :
    (winHook exNetNoToken exSt exResp401).result = .ok exResp401 := by
  have h := (token_failure_behaviour exNetNoToken exSt exResp401
    "https://gis.example.com/server/tokens").1
    (by decide) (by decide) (by decide) (by decide)
  exact h.1

/-- C5 counterexample: when the first issuance POST answers without a
`token` key, the endpoint is cached but no token is, so a second triggering
response to the same origin makes an additional issuance POST. -/
theorem failed_issuance_repeats_post :
    winTriggered exSt exResp401 = true ∧
    countGets (winHook exNetNoToken exSt exResp401).calls = 1 ∧
    countPosts (winHook exNetNoToken exSt exResp401).calls = 1 ∧
    winTriggered (winHook exNetNoToken exSt exResp401).state exResp401 = true ∧
    countPosts
      (winHook exNetNoToken (winHook exNetNoToken exSt exResp401).state exResp401).calls
      = 1 := by
  decide

/-- The Kerberos replay construction succeeds on every path other than
legacy POST. -/
theorem kerbReplay_ok (st : AuthState) (req : Request) (tok : String)
    (h : ¬(st.legacy = true ∧ req.method = "POST")) :
    kerbReplay st req tok = .ok (kerbReplayReq st req tok) := by
  unfold kerbReplay
  by_cases h1 : st.legacy = true ∧ req.method = "GET"
  · rw [if_pos h1]
  · rw [if_neg h1, if_neg h]

/-- The Kerberos replay construction raises `AttributeError` on the legacy
POST path (line 349 reads `r.body`, which a `Response` does not have). -/
theorem kerbReplay_err (st : AuthState) (req : Request) (tok : String)
    (h1 : st.legacy = true) (h2 : req.method = "POST") :
    kerbReplay st req tok = .error .attributeError := by
  have hng : ¬(st.legacy = true ∧ req.method = "GET") := by
    rintro ⟨-, hg⟩
    rw [h2] at hg
    exact absurd hg (by decide)
  unfold kerbReplay
  rw [if_neg hng, if_pos ⟨h1, h2⟩]

/-- C5 amended: on a fresh origin a triggering response with successful
discovery and issuance makes exactly one discovery GET and one issuance
POST and fills both caches; when both caches already hold the origin, a
triggering response makes no GET and no POST and leaves the state
unchanged.  The replay send then follows for `EsriWindowsAuth` always, and
for `EsriKerberosAuth` only outside legacy-POST, whose replay construction
raises `AttributeError` (line 349) before `connection.send`.  (If the first
issuance fails to yield a token, only the endpoint is cached and a later
triggering response posts again, per `failed_issuance_repeats_post`.) -/
theorem call_counts (net : Network) (st : AuthState) (r : Response)
    (tu tok : String) :
    (winTriggered st r = true →
     st.server_log.lookup (serverUrlOf r.url) = none →
     st.tokens.lookup (serverUrlOf r.url) = none →
     net.restInfo (serverUrlOf r.url) = some tu →
     net.issueToken tu (postdataOf st (serverUrlOf r.url)) = some (some tok) →
       (winHook net st r).calls =
         [.get (serverUrlOf r.url ++ "/rest/info?f=json"),
          .post tu (postdataOf st (serverUrlOf r.url)),
          .send (winReplayReq st r.request tok)] ∧
       countGets (winHook net st r).calls = 1 ∧
       countPosts (winHook net st r).calls = 1 ∧
       (winHook net st r).state.server_log = st.server_log ++ [(serverUrlOf r.url, tu)] ∧
       (winHook net st r).state.tokens = st.tokens ++ [(serverUrlOf r.url, tok)]) ∧
    (winTriggered st r = true →
     st.server_log.lookup (serverUrlOf r.url) = some tu →
     st.tokens.lookup (serverUrlOf r.url) = some tok →
       (winHook net st r).calls = [.send (winReplayReq st r.request tok)] ∧
       countGets (winHook net st r).calls = 0 ∧
       countPosts (winHook net st r).calls = 0 ∧
       (winHook net st r).state = st) ∧
    (kerbTriggered st r = true →
     st.server_log.lookup (serverUrlOf r.url) = none →
     st.tokens.lookup (serverUrlOf r.url) = none →
     net.restInfo (serverUrlOf r.url) = some tu →
     net.issueToken tu (postdataOf st (serverUrlOf r.url)) = some (some tok) →
       countGets (kerbHook net st r).calls = 1 ∧
       countPosts (kerbHook net st r).calls = 1 ∧
       (kerbHook net st r).state.server_log = st.server_log ++ [(serverUrlOf r.url, tu)] ∧
       (kerbHook net st r).state.tokens = st.tokens ++ [(serverUrlOf r.url, tok)] ∧
       (¬(st.legacy = true ∧ r.request.method = "POST") →
         (kerbHook net st r).calls =
           [.get (serverUrlOf r.url ++ "/rest/info?f=json"),
            .post tu (postdataOf st (serverUrlOf r.url)),
            .send (kerbReplayReq st r.request tok)]) ∧
       (st.legacy = true ∧ r.request.method = "POST" →
         (kerbHook net st r).calls =
           [.get (serverUrlOf r.url ++ "/rest/info?f=json"),
            .post tu (postdataOf st (serverUrlOf r.url))] ∧
         (kerbHook net st r).result = .error .attributeError)) ∧
    (kerbTriggered st r = true →
     st.server_log.lookup (serverUrlOf r.url) = some tu →
     st.tokens.lookup (serverUrlOf r.url) = some tok →
       countGets (kerbHook net st r).calls = 0 ∧
       countPosts (kerbHook net st r).calls = 0 ∧
       (kerbHook net st r).state = st ∧
       (¬(st.legacy = true ∧ r.request.method = "POST") →
         (kerbHook net st r).calls = [.send (kerbReplayReq st r.request tok)]) ∧
       (st.legacy = true ∧ r.request.method = "POST" →
         (kerbHook net st r).calls = [] ∧
         (kerbHook net st r).result = .error .attributeError)) := by
  refine ⟨?_, ?_, ?_, ?_⟩
  · intro htrig hsl htk hinfo hiss
    have hw : winHook net st r = discoveryStep winReplay net st r (serverUrlOf r.url) := by
      simp [winHook, htrig]
    rw [hw, discoveryStep_fresh winReplay net st r _ tu hsl hinfo,
      tokenStep_fresh_token winReplay net
        { st with server_log := st.server_log ++ [(serverUrlOf r.url, tu)] }
        r _ tu tok [.get (serverUrlOf r.url ++ "/rest/info?f=json")] htk hiss]
    exact ⟨rfl, rfl, rfl, rfl, rfl⟩
  · intro htrig hsl htk
    have hw : winHook net st r = discoveryStep winReplay net st r (serverUrlOf r.url) := by
      simp [winHook, htrig]
    rw [hw, discoveryStep_cached winReplay net st r _ tu hsl,
      tokenStep_cached winReplay net st r _ tu tok [] htk]
    exact ⟨rfl, rfl, rfl, rfl⟩
  · intro htrig hsl htk hinfo hiss
    have hk : kerbHook net st r = discoveryStep kerbReplay net st r (serverUrlOf r.url) := by
      simp [kerbHook, htrig]
    rw [hk, discoveryStep_fresh_token kerbReplay net st r _ tu tok hsl hinfo htk hiss]
    by_cases hlp : st.legacy = true ∧ r.request.method = "POST"
    · have hrep : kerbReplay
          { st with server_log := st.server_log ++ [(serverUrlOf r.url, tu)],
                    tokens := st.tokens ++ [(serverUrlOf r.url, tok)] }
          r.request tok = .error .attributeError :=
        kerbReplay_err
          { st with server_log := st.server_log ++ [(serverUrlOf r.url, tu)],
                    tokens := st.tokens ++ [(serverUrlOf r.url, tok)] }
          r.request tok hlp.1 hlp.2
      rw [finishWith_err kerbReplay net _ r tok _ .attributeError hrep]
      exact ⟨rfl, rfl, rfl, rfl, fun hn => absurd hlp hn, fun _ => ⟨rfl, rfl⟩⟩
    · have hrep : kerbReplay
          { st with server_log := st.server_log ++ [(serverUrlOf r.url, tu)],
                    tokens := st.tokens ++ [(serverUrlOf r.url, tok)] }
          r.request tok = .ok (kerbReplayReq st r.request tok) := by
        rw [kerbReplay_cache_irrel st _ _ r.request tok]
        exact kerbReplay_ok st r.request tok hlp
      rw [finishWith_ok kerbReplay net _ r tok _ (kerbReplayReq st r.request tok) hrep]
      exact ⟨rfl, rfl, rfl, rfl, fun _ => rfl, fun hp => absurd hp hlp⟩
  · intro htrig hsl htk
    have hk : kerbHook net st r = discoveryStep kerbReplay net st r (serverUrlOf r.url) := by
      simp [kerbHook, htrig]
    rw [hk, discoveryStep_cached kerbReplay net st r _ tu hsl,
      tokenStep_cached kerbReplay net st r _ tu tok [] htk]
    by_cases hlp : st.legacy = true ∧ r.request.method = "POST"
    · rw [finishWith_err kerbReplay net st r tok []
        .attributeError (kerbReplay_err st r.request tok hlp.1 hlp.2)]
      exact ⟨rfl, rfl, rfl, fun hn => absurd hlp hn, fun _ => ⟨rfl, rfl⟩⟩
    · rw [finishWith_ok kerbReplay net st r tok []
        (kerbReplayReq st r.request tok) (kerbReplay_ok st r.request tok hlp)]
      exact ⟨rfl, rfl, rfl, fun _ => rfl, fun hp => absurd hp hlp⟩

/-- Witness for `call_counts`: both caches warm, no GET and no POST. -/
theorem call_counts_witness :
    countPosts (winHook exNetOk exStCached exResp401).calls = 0 :=
  ((call_counts exNetOk exStCached exResp401
      "https://gis.example.com/server/tokens" "TOK").2.1
    (by decide) (by decide) (by decide)).2.2.1

theorem lookup_map_replace (m : List (String × String)) (k v : String)
    (h : m.any (fun kv => kv.1 = k) = true) :
    (m.map (fun kv => if kv.1 = k then (k, v) else kv)).lookup k = some v := by
  induction m with
  | nil => simp at h
  | cons a m ih =>
    obtain ⟨a1, a2⟩ := a
    simp only [List.any_cons, Bool.or_eq_true, decide_eq_true_eq] at h
    by_cases ha : a1 = k
    · subst ha
      simp only [List.map_cons, eq_self_iff_true, if_true]
      simp [List.lookup]
    · have hm : m.any (fun kv => decide (kv.1 = k)) = true := by
        rcases h with h | h
        · exact absurd h ha
        · exact h
      have hne : (k == a1) = false := by
        simp only [beq_eq_false_iff_ne, ne_eq]
        intro hk
        exact ha hk.symm
      simp only [List.map_cons]
      rw [if_neg ha]
      simp only [List.lookup, hne]
      exact ih hm

theorem lookup_append_fresh (m : List (String × String)) (k v : String)
    (h : m.any (fun kv => kv.1 = k) = false) :
    (m ++ [(k, v)]).lookup k = some v := by
  induction m with
  | nil => simp [List.lookup]
  | cons a m ih =>
    obtain ⟨a1, a2⟩ := a
    simp only [List.any_cons, Bool.or_eq_false_iff, decide_eq_false_iff_not] at h
    have hne : (k == a1) = false := by
      simp only [beq_eq_false_iff_ne, ne_eq]
      intro hk
      exact h.1 hk.symm
    simp only [List.cons_append, List.lookup, hne]
    exact ih (by simp [h.2])

/-- A dict assignment makes the key map to the assigned value. -/
theorem lookup_setItem_self (m : List (String × String)) (k v : String) :
    (setItem m k v).lookup k = some v := by
  unfold setItem
  split
  case isTrue h => exact lookup_map_replace m k v h
  case isFalse h => exact lookup_append_fresh m k v (Bool.eq_false_iff.mpr h)

/-- Every request the token step sends beyond `calls` was successfully
built by `replay` from the original request, a token, and a cache-extended
state. -/
theorem send_mem_tokenStep (replay : AuthState → Request → String → Except PyErr Request)
    (net : Network) (st : AuthState) (r : Response) (su tu : String)
    (calls : List HttpCall) (q : Request)
    (h : HttpCall.send q ∈ (tokenStep replay net st r su tu calls).calls) :
    HttpCall.send q ∈ calls ∨
    ∃ tok l, replay { st with tokens := st.tokens ++ l } r.request tok = .ok q := by
  cases htk : st.tokens.lookup su with
  | some tok =>
    rw [tokenStep_cached replay net st r su tu tok calls htk] at h
    cases hr : replay st r.request tok with
    | error e =>
      rw [finishWith_err replay net st r tok calls e hr] at h
      exact .inl h
    | ok q2 =>
      rw [finishWith_ok replay net st r tok calls q2 hr] at h
      simp only [List.mem_append, List.mem_singleton] at h
      rcases h with h | h
      · exact .inl h
      · cases h
        right
        refine ⟨tok, [], ?_⟩
        rw [List.append_nil]
        exact hr
  | none =>
    cases h2 : net.issueToken tu (postdataOf st su) with
    | none =>
      rw [tokenStep_issue_raises replay net st r su tu calls htk h2] at h
      simp only [List.mem_append, List.mem_singleton] at h
      rcases h with h | h
      · exact .inl h
      · cases h
    | some o =>
      cases o with
      | none =>
        rw [tokenStep_no_token_key replay net st r su tu calls htk h2] at h
        simp only [List.mem_append, List.mem_singleton] at h
        rcases h with h | h
        · exact .inl h
        · cases h
      | some tok =>
        rw [tokenStep_fresh_token replay net st r su tu tok calls htk h2] at h
        cases hr : replay { st with tokens := st.tokens ++ [(su, tok)] } r.request tok with
        | error e =>
          rw [finishWith_err replay net _ r tok _ e hr] at h
          simp only [List.mem_append, List.mem_singleton] at h
          rcases h with h | h
          · exact .inl h
          · cases h
        | ok q2 =>
          rw [finishWith_ok replay net _ r tok _ q2 hr] at h
          simp only [List.append_assoc, List.mem_append, List.mem_singleton] at h
          rcases h with h | h | h
          · exact .inl h
          · cases h
          · cases h
            exact .inr ⟨tok, [(su, tok)], hr⟩

/-- Every request a triggered invocation sends was successfully built by
`replay` from the original request, a token, and a cache-extended state. -/
theorem send_mem_discoveryStep (replay : AuthState → Request → String → Except PyErr Request)
    (net : Network) (st : AuthState) (r : Response) (su : String) (q : Request)
    (h : HttpCall.send q ∈ (discoveryStep replay net st r su).calls) :
    ∃ tok l1 l2,
      replay { st with server_log := st.server_log ++ l1,
                       tokens := st.tokens ++ l2 } r.request tok = .ok q := by
  cases hsl : st.server_log.lookup su with
  | some tu =>
    rw [discoveryStep_cached replay net st r su tu hsl] at h
    rcases send_mem_tokenStep replay net st r su tu [] q h with h' | ⟨tok, l, hq⟩
    · cases h'
    · refine ⟨tok, [], l, ?_⟩
      rw [List.append_nil]
      exact hq
  | none =>
    cases h2 : net.restInfo su with
    | none =>
      rw [discoveryStep_raises replay net st r su hsl h2] at h
      simp at h
    | some tu =>
      rw [discoveryStep_fresh replay net st r su tu hsl h2] at h
      rcases send_mem_tokenStep replay net
          { st with server_log := st.server_log ++ [(su, tu)] } r su tu
          [.get (su ++ "/rest/info?f=json")] q h with h' | ⟨tok, l, hq⟩
      · simp at h'
      · exact ⟨tok, [(su, tu)], l, hq⟩

theorem send_mem_winHook (net : Network) (st : AuthState) (r : Response)
    (q : Request) (h : HttpCall.send q ∈ (winHook net st r).calls) :
    ∃ tok, q = winReplayReq st r.request tok := by
  unfold winHook at h
  split at h
  · obtain ⟨tok, l1, l2, hq⟩ :=
      send_mem_discoveryStep winReplay net st r (serverUrlOf r.url) q h
    rw [winReplay_cache_irrel] at hq
    unfold winReplay at hq
    injection hq with hq2
    exact ⟨tok, hq2.symm⟩
  · simp at h

theorem send_mem_kerbHook (net : Network) (st : AuthState) (r : Response)
    (q : Request) (h : HttpCall.send q ∈ (kerbHook net st r).calls) :
    ∃ tok, kerbReplay st r.request tok = .ok q := by
  unfold kerbHook at h
  split at h
  · obtain ⟨tok, l1, l2, hq⟩ :=
      send_mem_discoveryStep kerbReplay net st r (serverUrlOf r.url) q h
    rw [kerbReplay_cache_irrel] at hq
    exact ⟨tok, hq⟩
  · simp at h

/-- C3 counterexample: `EsriKerberosAuth` in legacy mode replaying a GET
still sends the `X-Esri-Authorization` bearer header (line 344 sets it
before the legacy branch), against the claim that legacy mode does not use
a bearer header. -/
theorem kerb_legacy_sends_bearer :
    exStLegacy.legacy = true ∧
    exRespMarker.request.method = "GET" ∧
    (kerbHook exNetOk exStLegacy exRespMarker).calls.any
      (fun c => match c with
        | .send q => (q.headers.lookup "X-Esri-Authorization").isSome
        | _ => false) = true := by
  decide

/-- C3 amended: whenever a token is obtained and a request is replayed,
`EsriWindowsAuth` behaves as claimed (bearer header plus referer when legacy
is off; in legacy mode only a `token` query parameter for GET or body
parameter for POST, with no bearer header added).  `EsriKerberosAuth`
instead stamps the bearer header on every request it replays — legacy GET
included, in addition to the token query parameter — and in legacy mode it
never replays a POST at all: line 349 reads `r.body`, which a `Response`
lacks, raising `AttributeError` before `connection.send`. -/
theorem replay_token_attachment (net : Network) (st : AuthState) (r : Response)
    (q : Request) :
    (HttpCall.send q ∈ (winHook net st r).calls →
      ∃ tok,
        (st.legacy = true → r.request.method = "GET" →
          q = { r.request with
                headers := setItem r.request.headers "referer" (refOrHttp st),
                urlParams := r.request.urlParams ++ [("token", tok)] }) ∧
        (st.legacy = true → r.request.method = "POST" →
          q = { r.request with
                headers := setItem r.request.headers "referer" (refOrHttp st),
                bodyParams := setItem r.request.bodyParams "token" tok }) ∧
        (st.legacy = false →
          q = { r.request with
                headers := setItem (setItem r.request.headers "referer" (refOrHttp st))
                  "X-Esri-Authorization" ("Bearer " ++ tok) })) ∧
    (HttpCall.send q ∈ (kerbHook net st r).calls →
      ∃ tok,
        q.headers.lookup "X-Esri-Authorization" = some ("Bearer " ++ tok) ∧
        ¬(st.legacy = true ∧ r.request.method = "POST") ∧
        (st.legacy = true → r.request.method = "GET" →
          q.urlParams = r.request.urlParams ++ [("token", tok)]) ∧
        (st.legacy = false →
          q.urlParams = r.request.urlParams ∧ q.bodyParams = r.request.bodyParams)) ∧
    (st.legacy = true → r.request.method = "POST" →
      ∀ q2, HttpCall.send q2 ∉ (kerbHook net st r).calls) := by
  refine ⟨?_, ?_, ?_⟩
  · intro h
    obtain ⟨tok, hq⟩ := send_mem_winHook net st r q h
    refine ⟨tok, ?_, ?_, ?_⟩
    · intro hleg hm
      rw [hq]
      unfold winReplayReq
      rw [if_pos ⟨hleg, hm⟩]
    · intro hleg hm
      rw [hq]
      unfold winReplayReq
      rw [if_neg (by simp [hm]), if_pos ⟨hleg, hm⟩]
    · intro hleg
      rw [hq]
      unfold winReplayReq
      rw [if_neg (by simp [hleg]), if_neg (by simp [hleg])]
  · intro h
    obtain ⟨tok, hq⟩ := send_mem_kerbHook net st r q h
    have hnp : ¬(st.legacy = true ∧ r.request.method = "POST") := by
      intro hlp
      rw [kerbReplay_err st r.request tok hlp.1 hlp.2] at hq
      cases hq
    have hq2 : q = kerbReplayReq st r.request tok := by
      rw [kerbReplay_ok st r.request tok hnp] at hq
      injection hq with hq3
      exact hq3.symm
    refine ⟨tok, ?_, hnp, ?_, ?_⟩
    · rw [hq2]
      unfold kerbReplayReq
      split
      · exact lookup_setItem_self _ _ _
      · exact lookup_setItem_self _ _ _
    · intro hleg hm
      rw [hq2]
      unfold kerbReplayReq
      rw [if_pos ⟨hleg, hm⟩]
    · intro hleg
      rw [hq2]
      unfold kerbReplayReq
      rw [if_neg (by simp [hleg])]
      exact ⟨rfl, rfl⟩
  · intro hleg hm q2 h
    obtain ⟨tok, hq⟩ := send_mem_kerbHook net st r q2 h
    rw [kerbReplay_err st r.request tok hleg hm] at hq
    cases hq

/-- Witness for `replay_token_attachment`: the legacy GET replay of
`EsriWindowsAuth` carries the token as a query parameter. -/
theorem replay_token_attachment_witness :
    ∃ tok, winReplayReq exStLegacy exReq "TOK" =
      { exReq with
        headers := setItem exReq.headers "referer" (refOrHttp exStLegacy),
        urlParams := exReq.urlParams ++ [("token", tok)] } := by
  obtain ⟨tok, h1, h2, h3⟩ :=
    (replay_token_attachment exNetOk exStLegacy exRespMarker
      (winReplayReq exStLegacy exReq "TOK")).1 (by decide)
  exact ⟨tok, h1 rfl rfl⟩

/-- Witness for `post_payload_fields` at a concrete issuance POST. -/
theorem post_payload_fields_witness :
    [("request", "getToken"), ("serverURL", serverUrlOf exResp401.url),
     ("referer", refOrHttp exSt), ("f", "json"), ("expiration", "16000")] =
    [("request", "getToken"), ("serverURL", "https://gis.example.com/server"),
     ("referer", "http"), ("f", "json"), ("expiration", "16000")] :=
  (post_payload_fields exNetOk exSt exResp401 "https://gis.example.com/server/tokens"
      [("request", "getToken"), ("serverURL", "https://gis.example.com/server"),
       ("referer", "http"), ("f", "json"), ("expiration", "16000")]
      (by decide)).symm.trans (by decide)

/-- C2: `EsriWindowsAuth.__init__` selects exactly one credential delegate
following the claimed priority: (1) no credentials and SSPI available gives
implicit SSPI; (2) otherwise a Windows environment with Kerberos available
gives explicit Kerberos with a principal derived from the parsed username;
(3) otherwise SPNEGO availability gives anonymous negotiation when either
credential is missing and password-acquired credentials when both are
present; (4) otherwise both credentials with SSPI give domain-qualified
SSPI; and the configuration error is raised exactly when no branch applies. -/
theorem delegate_selection_priority (username password : Option String)
    (hasSSPI hasKerberos hasGSSAPI windows : Bool) :
    (esriWindowsAuthSelect username password hasSSPI hasKerberos hasGSSAPI windows
        = .ok .sspiImplicit ↔
      (truthy username = false ∧ truthy password = false ∧ hasSSPI = true)) ∧
    (∀ pr, esriWindowsAuthSelect username password hasSSPI hasKerberos hasGSSAPI windows
        = .ok (.kerberosExplicit pr) →
      (¬(truthy username = false ∧ truthy password = false ∧ hasSSPI = true) ∧
       windows = true ∧ hasKerberos = true)) ∧
    (¬(truthy username = false ∧ truthy password = false ∧ hasSSPI = true) →
     windows = true → hasKerberos = true →
     ∀ u un dm, username = some u → splitUsername u = some (un, dm) →
       esriWindowsAuthSelect username password hasSSPI hasKerberos hasGSSAPI windows
         = .ok (.kerberosExplicit (un ++ "@" ++ dm ++ ":" ++ pyStr password))) ∧
    (esriWindowsAuthSelect username password hasSSPI hasKerberos hasGSSAPI windows
        = .ok .spnegoAnonymous ↔
      (¬(truthy username = false ∧ truthy password = false ∧ hasSSPI = true) ∧
       ¬(windows = true ∧ hasKerberos = true) ∧ hasGSSAPI = true ∧
       (truthy username = false ∨ truthy password = false))) ∧
    (∀ u, esriWindowsAuthSelect username password hasSSPI hasKerberos hasGSSAPI windows
        = .ok (.spnegoCreds u) ↔
      (¬(truthy username = false ∧ truthy password = false ∧ hasSSPI = true) ∧
       ¬(windows = true ∧ hasKerberos = true) ∧ hasGSSAPI = true ∧
       truthy username = true ∧ truthy password = true ∧ pyStr username = u)) ∧
    (∀ d usr, esriWindowsAuthSelect username password hasSSPI hasKerberos hasGSSAPI windows
        = .ok (.sspiDomain d usr) →
      (¬(truthy username = false ∧ truthy password = false ∧ hasSSPI = true) ∧
       ¬(windows = true ∧ hasKerberos = true) ∧ hasGSSAPI = false ∧
       truthy username = true ∧ truthy password = true ∧ hasSSPI = true)) ∧
    (¬(truthy username = false ∧ truthy password = false ∧ hasSSPI = true) →
     ¬(windows = true ∧ hasKerberos = true) → hasGSSAPI = false →
     truthy username = true → truthy password = true → hasSSPI = true →
     ∀ u d usr, username = some u → pySplit u.toList '\\' = [d, usr] →
       esriWindowsAuthSelect username password hasSSPI hasKerberos hasGSSAPI windows
         = .ok (.sspiDomain (String.mk d) (String.mk usr))) ∧
    (esriWindowsAuthSelect username password hasSSPI hasKerberos hasGSSAPI windows
        = .error .configError ↔
      (¬(truthy username = false ∧ truthy password = false ∧ hasSSPI = true) ∧
       ¬(windows = true ∧ hasKerberos = true) ∧ hasGSSAPI = false ∧
       ¬(truthy username = true ∧ truthy password = true ∧ hasSSPI = true))) := by
  by_cases h1 : truthy username = false ∧ truthy password = false ∧ hasSSPI = true
  · obtain ⟨h1a, h1b, h1c⟩ := h1
    subst h1c
    have hsel : esriWindowsAuthSelect username password true hasKerberos hasGSSAPI windows
        = .ok .sspiImplicit := by
      unfold esriWindowsAuthSelect
      rw [if_pos ⟨by simp [h1a], by simp [h1b], rfl⟩]
    refine ⟨?_, ?_, ?_, ?_, ?_, ?_, ?_, ?_⟩ <;> simp only [hsel] <;> simp [h1a, h1b]
  · have hif1 : ¬((!truthy username) = true ∧ (!truthy password) = true ∧ hasSSPI = true) := by
      simpa using h1
    by_cases h2 : windows = true ∧ hasKerberos = true
    · obtain ⟨hw, hk⟩ := h2
      subst hw
      subst hk
      cases husr : username with
      | none =>
        have hsel : esriWindowsAuthSelect none password hasSSPI true hasGSSAPI true
            = .error .noneUsername := by
          unfold esriWindowsAuthSelect
          rw [if_neg (husr ▸ hif1), if_pos ⟨rfl, rfl⟩]
        refine ⟨?_, ?_, ?_, ?_, ?_, ?_, ?_, ?_⟩ <;> simp only [hsel] <;>
          (try simp_all [truthy]) <;> (try (intros; subst_vars; simp_all))
      | some u =>
        cases hsu : splitUsername u with
        | none =>
          have hsel : esriWindowsAuthSelect (some u) password hasSSPI true hasGSSAPI true
              = .error .splitFailure := by
            unfold esriWindowsAuthSelect
            rw [if_neg (husr ▸ hif1), if_pos ⟨rfl, rfl⟩]
            simp [hsu]
          refine ⟨?_, ?_, ?_, ?_, ?_, ?_, ?_, ?_⟩ <;> simp only [hsel] <;>
            (try simp_all [truthy]) <;> (try (intros; subst_vars; simp_all))
        | some p =>
          obtain ⟨un, dm⟩ := p
          have hsel : esriWindowsAuthSelect (some u) password hasSSPI true hasGSSAPI true
              = .ok (.kerberosExplicit (un ++ "@" ++ dm ++ ":" ++ pyStr password)) := by
            unfold esriWindowsAuthSelect
            rw [if_neg (husr ▸ hif1), if_pos ⟨rfl, rfl⟩]
            simp [hsu]
          refine ⟨?_, ?_, ?_, ?_, ?_, ?_, ?_, ?_⟩ <;> simp only [hsel] <;>
            (try simp_all [truthy]) <;> (try (intros; subst_vars; simp_all))
    · by_cases h3 : hasGSSAPI = true
      · subst h3
        by_cases h3a : truthy username = false ∨ truthy password = false
        · have hsel : esriWindowsAuthSelect username password hasSSPI hasKerberos true windows
              = .ok .spnegoAnonymous := by
            unfold esriWindowsAuthSelect
            rw [if_neg hif1, if_neg h2, if_pos rfl, if_pos (by simpa using h3a)]
          refine ⟨?_, ?_, ?_, ?_, ?_, ?_, ?_, ?_⟩ <;> simp only [hsel] <;>
            (try simp_all) <;> (try (intros; subst_vars; simp_all))
        · have htu : truthy username = true := by
            by_contra hc
            exact h3a (Or.inl (Bool.eq_false_iff.mpr hc))
          have htp : truthy password = true := by
            by_contra hc
            exact h3a (Or.inr (Bool.eq_false_iff.mpr hc))
          have hsel : esriWindowsAuthSelect username password hasSSPI hasKerberos true windows
              = .ok (.spnegoCreds (pyStr username)) := by
            unfold esriWindowsAuthSelect
            rw [if_neg hif1, if_neg h2, if_pos rfl, if_neg (by simp [htu, htp])]
          refine ⟨?_, ?_, ?_, ?_, ?_, ?_, ?_, ?_⟩ <;> simp only [hsel] <;>
            (try simp_all) <;> (try (intros; subst_vars; simp_all))
      · have h3f : hasGSSAPI = false := Bool.eq_false_iff.mpr h3
        subst h3f
        by_cases h4 : truthy username = true ∧ truthy password = true ∧ hasSSPI = true
        · obtain ⟨h4a, h4b, h4c⟩ := h4
          subst h4c
          cases husr : username with
          | none => simp [husr, truthy] at h4a
          | some u =>
            have hsel0 : esriWindowsAuthSelect (some u) password true hasKerberos false windows
                = (match pySplit u.toList '\\' with
                   | [d, usr] => .ok (.sspiDomain (String.mk d) (String.mk usr))
                   | _ => .error .unpackError) := by
              unfold esriWindowsAuthSelect
              rw [if_neg (husr ▸ hif1), if_neg h2, if_neg (by simp), if_pos ⟨husr ▸ h4a, h4b, rfl⟩]
            cases hps : pySplit u.toList '\\' with
            | nil =>
              rw [hps] at hsel0
              refine ⟨?_, ?_, ?_, ?_, ?_, ?_, ?_, ?_⟩ <;> simp only [hsel0] <;>
                (try simp_all [truthy]) <;> (try (intros; subst_vars; simp_all))
            | cons d rest =>
              cases rest with
              | nil =>
                rw [hps] at hsel0
                refine ⟨?_, ?_, ?_, ?_, ?_, ?_, ?_, ?_⟩ <;> simp only [hsel0] <;>
                  (try simp_all [truthy]) <;> (try (intros; subst_vars; simp_all))
              | cons usr rest2 =>
                cases rest2 with
                | nil =>
                  rw [hps] at hsel0
                  refine ⟨?_, ?_, ?_, ?_, ?_, ?_, ?_, ?_⟩ <;> simp only [hsel0] <;>
                    (try simp_all [truthy]) <;> (try (intros; subst_vars; simp_all))
                | cons x rest3 =>
                  rw [hps] at hsel0
                  refine ⟨?_, ?_, ?_, ?_, ?_, ?_, ?_, ?_⟩ <;> simp only [hsel0] <;>
                    (try simp_all [truthy]) <;> (try (intros; subst_vars; simp_all))
        · have hsel : esriWindowsAuthSelect username password hasSSPI hasKerberos false windows
              = .error .configError := by
            unfold esriWindowsAuthSelect
            rw [if_neg hif1, if_neg h2, if_neg (by simp), if_neg h4]
          refine ⟨?_, ?_, ?_, ?_, ?_, ?_, ?_, ?_⟩ <;> simp only [hsel] <;>
            (try simp_all) <;> (try (intros; subst_vars; simp_all))

/-- Witness for `delegate_selection_priority`: no credentials and SSPI
available selects the implicit SSPI delegate. -/
theorem delegate_selection_priority_witness :
    esriWindowsAuthSelect none none true false false false = .ok .sspiImplicit :=
  (delegate_selection_priority none none true false false false).1.mpr
    ⟨rfl, rfl, rfl⟩

theorem sepAt_char (cs : List Char) (k : Nat) (sep : String)
    (h : sepAt cs k = some sep) :
    ∃ c, cs.get? k = some c ∧ (c = '@' ∨ c = '#' ∨ c = '/' ∨ c = '\\') := by
  unfold sepAt at h
  split at h
  · cases h
  · rename_i c hg
    refine ⟨c, hg, ?_⟩
    split_ifs at h <;> simp_all

theorem no_sep_chars_no_match (cs : List Char)
    (h : ∀ c ∈ cs, ¬(c = '@' ∨ c = '#' ∨ c = '/' ∨ c = '\\')) :
    firstMatch cs = none := by
  have hsep : ∀ k, sepAt cs k = none := by
    intro k
    cases hs : sepAt cs k with
    | none => rfl
    | some sep =>
      obtain ⟨c, hg, hc⟩ := sepAt_char cs k sep hs
      exact absurd hc (h c (List.get?_mem hg))
  unfold firstMatch firstSepPos
  rw [List.find?_eq_none.mpr]
  intro k _
  simp [hsep k]

/-- C10: `_split_username` returns a pair only when the first regex match's
separator is `@`, `/`, `//` or `\`; a username containing none of the four
separator characters yields no match and the call raises (`IndexError` on
`tokens[1]`), and a matched `#` separator leaves `uname`/`dom` unbound and
the call raises (`UnboundLocalError`); in both cases constructing
`EsriWindowsAuth` down the Kerberos branch, which parses the username,
fails. -/
theorem split_username_separator_behaviour (s : String) :
    (∀ u d, splitUsername s = some (u, d) →
      ∃ pre sep post, firstMatch s.toList = some (pre, sep, post) ∧
        (sep = "@" ∨ sep = "/" ∨ sep = "//" ∨ sep = "\\")) ∧
    ((∀ c ∈ s.toList, ¬(c = '@' ∨ c = '#' ∨ c = '/' ∨ c = '\\')) →
      splitUsername s = none) ∧
    (∀ pre post, firstMatch s.toList = some (pre, "#", post) →
      splitUsername s = none) ∧
    (∀ password hasSSPI hasGSSAPI, splitUsername s = none →
      ¬(truthy (some s) = false ∧ truthy password = false ∧ hasSSPI = true) →
      esriWindowsAuthSelect (some s) password hasSSPI true hasGSSAPI true
        = .error .splitFailure) := by
  refine ⟨?_, ?_, ?_, ?_⟩
  · intro u d h
    unfold splitUsername at h
    split at h
    · cases h
    · rename_i pre sep post hm
      refine ⟨pre, sep, post, hm, ?_⟩
      split_ifs at h with h1 h2
      · rcases h1 with h1 | h1 | h1
        · exact .inr (.inr (.inl h1))
        · exact .inr (.inr (.inr h1))
        · exact .inr (.inl h1)
      · exact .inl h2
  · intro h
    unfold splitUsername
    rw [no_sep_chars_no_match s.toList h]
  · intro pre post hm
    unfold splitUsername
    rw [hm]
    rfl
  · intro password hasSSPI hasGSSAPI hsplit hng1
    unfold esriWindowsAuthSelect
    rw [if_neg (by simpa using hng1), if_pos ⟨rfl, rfl⟩]
    simp [hsplit]

/-- Witness for `split_username_separator_behaviour`: `user@dom` parses and
its first matched separator is `@`. -/
theorem split_username_separator_behaviour_witness :
    ∃ pre sep post, firstMatch ("user@dom".toList) = some (pre, sep, post) ∧
      (sep = "@" ∨ sep = "/" ∨ sep = "//" ∨ sep = "\\") :=
  (split_username_separator_behaviour "user@dom").1 "user" "dom" (by decide)

end WinAuth
